import Mathlib

/-!
Shallow embedding of the product-creation orchestrator
(`app/api/v1/endpoints/products.py`, endpoint `create_product_from_webhook`).

The endpoint makes up to five outbound HTTP calls (user info, image upload,
optional video check, description generation, product submission).  We model
the downstream world as an `Env` holding each service's response, and the
endpoint as a pure function from the webhook payload and the environment to
a result together with the ordered list of outbound calls it issued.
JSON values are modelled by the inductive `Json`; Python truthiness
(`if not x`) by `Json.truthy`; `dict.get(k, d)` by `Json.getD`.
-/

namespace Orchestrator

/-- JSON values, as produced by `response.json()`.  Objects keep insertion
order, like Python dicts. -/
inductive Json where
  | null : Json
  | bool : Bool → Json
  | num : Int → Json
  | str : String → Json
  | arr : List Json → Json
  | obj : List (String × Json) → Json

/-- Python truthiness of a JSON value: `None`, `False`, `0`, `""`, `[]`, `{}`
are falsy, everything else truthy. -/
def Json.truthy : Json → Bool
  | .null => false
  | .bool b => b
  | .num n => n != 0
  | .str s => s != ""
  | .arr xs => !xs.isEmpty
  | .obj fs => !fs.isEmpty

/-- First-match lookup in an ordered field list (Python dict indexing). -/
def getKey : List (String × Json) → String → Option Json
  | [], _ => none
  | (k', v) :: rest, k => if k' = k then some v else getKey rest k

/-- Python dict item assignment: replace the first binding of `k` in
place, else append (Python dicts keep insertion order and update in
place). -/
def setKey : List (String × Json) → String → Json → List (String × Json)
  | [], k, v => [(k, v)]
  | (k', v') :: rest, k, v =>
      if k' = k then (k, v) :: rest else (k', v') :: setKey rest k v

/-- Python `d.get(k)` on a JSON object; `none` when the key is absent or
the value is not an object (Python would raise on a non-dict; the claims
only involve object-shaped responses). -/
def Json.get? : Json → String → Option Json
  | .obj fs, k => getKey fs k
  | _, _ => none

/-- Python `d.get(k, default)`. -/
def Json.getD (j : Json) (k : String) (d : Json) : Json :=
  (j.get? k).getD d

/-- The parsed inbound webhook body (`TelegramWebhookPayload` in
`schemas/telegram_webhook.py`), after the endpoint's step 1 extraction:
`message` is `raw_data_json.raw_message.message`, `photos` the stringified
photo links, `video` the optional stringified video link, plus `stock` and
`access_token`. -/
structure TelegramWebhookPayload where
  message : String
  photos : List String
  stock : Int
  video : Option String
  access_token : String

/-- A downstream HTTP response: its status code, parsed JSON body
(`response.json()`) and raw text (`response.text`, used in error details). -/
structure HttpResponse where
  status : Nat
  body : Json
  text : String

/-- The downstream world for one request: the response each service would
give.  For the two concurrently awaited media calls a transport-level
failure (an exception collected by `asyncio.gather`) is modelled as
`.error msg`; the other three calls are modelled as always reaching an HTTP
response. -/
structure Env where
  userInfoResp : HttpResponse
  imageResult : Except String HttpResponse
  videoResult : Except String HttpResponse
  descResp : HttpResponse
  submitResp : HttpResponse

/-- An outbound call issued by the endpoint, with its request data. -/
inductive ServiceCall where
  | userInfo (token : String)
  | imageUpload (photo_links : List String)
  | videoCheck (video_link : String)
  | description (raw_text : String)
  | submission (vendor_id : Json) (body : Json) (token : String)

/-- Outcome of the endpoint: the 200 success body (submitted payload plus
the Basalam response) or an `HTTPException`-style error (status, detail). -/
inductive OrchResult where
  | ok (submitted : Json) (basalamResponse : Json)
  | err (status : Nat) (detail : String)

def SMART_UPLOADER_URL : String := "https://smart-uploader.basalam.dev/process-images"

def VIDEO_CHECK_URL : String := "https://dwh-n8n.basalam.dev/webhook-test/Video-Check"

def DESCRIPTION_SERVICE_URL : String := "https://request-maker.basalam.dev/api/v1/generate-description"

def BASALAM_USER_INFO_URL : String := "https://core.basalam.com/v3/users/me"

/-- The httpx `raise_for_status` check: it raises unless the status is a
2xx success. -/
def is2xx (s : Nat) : Bool := 200 ≤ s && s < 300

/-- Line 63: `vendor_id` is the user body's "vendor" object's "id" field,
with an empty-dict default for the "vendor" lookup and a `None` default for
the "id" lookup. -/
def vendorOf (env : Env) : Json :=
  (env.userInfoResp.body.getD "vendor" (.obj [])).getD "id" .null

/-- Lines 105-106: `processed_images = resp.json().get("processed_images", [])`
then `[img['id'] for img in processed_images if 'id' in img]`. -/
def imageIdsOf (body : Json) : List Json :=
  (match body.getD "processed_images" (.arr []) with
   | .arr imgs => imgs
   | _ => []).filterMap (fun img => Json.get? img "id")

/-- The `for i, res in enumerate(responses)` loop (lines 95-99): a transport
exception on either gathered task fails with 504 naming the failed URL; the
image task is checked first because it is first in `tasks`. -/
def mediaTransport (video_link : Option String)
    (imageResult videoResult : Except String HttpResponse) :
    Except (Nat × String) (HttpResponse × Option HttpResponse) :=
  match imageResult with
  | .error _ => .error (504, "Network error for " ++ SMART_UPLOADER_URL)
  | .ok ir =>
    match video_link, videoResult with
    | some _, .error _ => .error (504, "Network error for " ++ VIDEO_CHECK_URL)
    | some _, .ok vr => .ok (ir, some vr)
    | none, _ => .ok (ir, none)

/-- Lines 101-126 after the transport loop: image `raise_for_status` (502 on
non-2xx), the empty-image-ids 400, then the video response (only when a
video task was gathered): `raise_for_status` (502), then `is_forbidden` /
`id` extraction.  `.ok (image_ids, video_id)` carries the collected image
ids and the video id (`Json.null` when never set, matching
`video_id = None`). -/
def mediaValidate (ir : HttpResponse) (vr? : Option HttpResponse) :
    Except (Nat × String) (List Json × Json) :=
  if is2xx ir.status then
    if (imageIdsOf ir.body).isEmpty then
      .error (400, "Uploader service returned no valid image IDs.")
    else
      match vr? with
      | some vr =>
        if is2xx vr.status then
          if (vr.body.getD "is_forbidden" .null).truthy then
            .ok (imageIdsOf ir.body, .null)
          else
            .ok (imageIdsOf ir.body, vr.body.getD "id" .null)
        else
          .error (502, "Error from media service " ++ VIDEO_CHECK_URL ++ ": " ++ vr.text)
      | none => .ok (imageIdsOf ir.body, .null)
  else
    .error (502, "Error from media service " ++ SMART_UPLOADER_URL ++ ": " ++ ir.text)

/-- Step 2 (lines 76-126) as a whole. -/
def mediaStage (video_link : Option String)
    (imageResult videoResult : Except String HttpResponse) :
    Except (Nat × String) (List Json × Json) :=
  (mediaTransport video_link imageResult videoResult).bind fun p => mediaValidate p.1 p.2

/-- Step 3 (lines 129-139): description-service `raise_for_status` (502 on
non-2xx), then `basalam_ready_payload = resp.json().get("data")` which must
be truthy, else the 500 "invalid payload" error. -/
def descStage (resp : HttpResponse) : Except (Nat × String) Json :=
  if is2xx resp.status then
    if (resp.body.getD "data" .null).truthy then
      .ok (resp.body.getD "data" .null)
    else
      .error (500, "Received invalid payload from description service.")
  else
    .error (502, "Error from Description service: " ++ resp.text)

/-- Step 4 (lines 143-155): in-place injection of the media ids and fixed
fields into the draft's field list. -/
def injectMedia (fs : List (String × Json)) (image_ids : List Json)
    (video_id vendor_id : Json) (stock : Int) : List (String × Json) :=
  let a := if image_ids.isEmpty then fs
    else setKey (setKey fs "photo" (image_ids.headD .null)) "photos" (.arr image_ids.tail)
  let b := if video_id.truthy then setKey a "video" video_id else a
  setKey (setKey (setKey (setKey (setKey b
    "vendor_id" vendor_id)
    "preparation_days" (.num 1))
    "stock" (.num stock))
    "unit_type" (.num 6304))
    "unit_quantity" (.num 1)

/-- The video-check call is gathered only when a video link is present
(lines 84-91). -/
def videoCallOf : Option String → List ServiceCall
  | some l => [ServiceCall.videoCheck l]
  | none => []

/-- Calls issued by the end of step 1.5. -/
def callsUser (p : TelegramWebhookPayload) : List ServiceCall :=
  [ServiceCall.userInfo p.access_token]

/-- Calls issued by the end of step 2 (image upload, plus the video check
when a video link is present). -/
def callsMedia (p : TelegramWebhookPayload) : List ServiceCall :=
  callsUser p ++ ServiceCall.imageUpload p.photos :: videoCallOf p.video

/-- Calls issued by the end of step 3. -/
def callsDesc (p : TelegramWebhookPayload) : List ServiceCall :=
  callsMedia p ++ [ServiceCall.description p.message]

/-- All five calls, `final` being the submitted draft. -/
def callsAll (p : TelegramWebhookPayload) (env : Env) (final : Json) : List ServiceCall :=
  callsDesc p ++ [ServiceCall.submission (vendorOf env) final p.access_token]

/-- The whole endpoint `create_product_from_webhook`, as a pure function of
the payload and the downstream environment.  Returns the outcome and the
ordered list of outbound calls issued.  A truthy non-object `data` from the
description service makes Python raise `TypeError` at the first item
assignment (line 145), which FastAPI surfaces as a plain 500; that branch is
modelled as `.err 500 "Internal Server Error"`. -/
def create_product_from_webhook (p : TelegramWebhookPayload) (env : Env) :
    OrchResult × List ServiceCall :=
  if is2xx env.userInfoResp.status then
    if (vendorOf env).truthy then
      match mediaStage p.video env.imageResult env.videoResult with
      | .error e => (.err e.1 e.2, callsMedia p)
      | .ok (image_ids, video_id) =>
        match descStage env.descResp with
        | .error e => (.err e.1 e.2, callsDesc p)
        | .ok data =>
          match data with
          | .obj fs =>
            let final := Json.obj (injectMedia fs image_ids video_id (vendorOf env) p.stock)
            if is2xx env.submitResp.status then
              (.ok final env.submitResp.body, callsAll p env final)
            else
              (.err 502 ("Final submission to Basalam API failed: " ++ env.submitResp.text),
               callsAll p env final)
          | _ => (.err 500 "Internal Server Error", callsDesc p)
    else
      (.err 400 "User does not have a valid vendor account.", callsUser p)
  else
    (.err 401 ("Authentication failed: " ++ env.userInfoResp.text), callsUser p)

/-- Substring test used to formalise "the error detail carries X": `pat`
occurs somewhere in `s`. -/
def strContains (s pat : String) : Bool :=
  (List.range (s.length + 1)).any (fun i => pat.toList.isPrefixOf (s.toList.drop i))

/-! ### Concrete fixtures used by witnesses and counterexamples -/

/-- A webhook payload without a video link. -/
def pHappy : TelegramWebhookPayload :=
  { message := "shirt", photos := ["https://img.example/a.jpg"], stock := 5,
    video := none, access_token := "tok" }

/-- A webhook payload with a video link. -/
def pVid : TelegramWebhookPayload :=
  { message := "shirt", photos := ["https://img.example/a.jpg"], stock := 5,
    video := some "https://img.example/v.mp4", access_token := "tok" }

def uiOK : HttpResponse := ⟨200, .obj [("vendor", .obj [("id", .num 7)])], "ui"⟩

def imgOK : HttpResponse :=
  ⟨200, .obj [("processed_images", .arr [.obj [("id", .num 11)], .obj [("id", .num 22)]])],
   "img"⟩

def imgNoIds : HttpResponse := ⟨200, .obj [("processed_images", .arr [])], "img"⟩

def descOK : HttpResponse := ⟨200, .obj [("data", .obj [("title", .str "T")])], "desc"⟩

def subOK : HttpResponse := ⟨200, .obj [("ok", .bool true)], "sub"⟩

def vidNeutral : HttpResponse := ⟨200, .null, "vid"⟩

/-- Happy path without video. -/
def envA : Env := ⟨uiOK, .ok imgOK, .ok vidNeutral, descOK, subOK⟩

/-- Image service answers 2xx but with an empty `processed_images`. -/
def envNoIds : Env := ⟨uiOK, .ok imgNoIds, .ok vidNeutral, descOK, subOK⟩

/-- User-info call rejected downstream. -/
def envAuthBad : Env := ⟨⟨403, .null, "nope"⟩, .ok imgOK, .ok vidNeutral, descOK, subOK⟩

/-- Image service answers non-2xx. -/
def envImgBad : Env := ⟨uiOK, .ok ⟨500, .null, "bad"⟩, .ok vidNeutral, descOK, subOK⟩

/-- Video check answers non-2xx. -/
def envVidBad : Env := ⟨uiOK, .ok imgOK, .ok ⟨503, .null, "vbad"⟩, descOK, subOK⟩

/-- Description service answers 2xx with no `data` field. -/
def envDescEmpty : Env := ⟨uiOK, .ok imgOK, .ok vidNeutral, ⟨200, .obj [], "desc"⟩, subOK⟩

/-- Video check flags the video as forbidden (and still reports an id). -/
def envForbidden : Env :=
  ⟨uiOK, .ok imgOK, .ok ⟨200, .obj [("is_forbidden", .bool true), ("id", .num 99)], "vid"⟩,
   descOK, subOK⟩

/-- User info reports a vendor object whose id is the integer 0. -/
def envVendor0 : Env :=
  ⟨⟨200, .obj [("vendor", .obj [("id", .num 0)])], "ui"⟩, .ok imgOK, .ok vidNeutral,
   descOK, subOK⟩

/-- Video check answers 2xx with neither `is_forbidden` nor `id`. -/
def envNoForbKey : Env :=
  ⟨uiOK, .ok imgOK, .ok ⟨200, .obj [("other", .num 1)], "vid"⟩, descOK, subOK⟩

/-- The draft submitted on the `pHappy`/`envA` happy path. -/
def draftA : Json :=
  .obj [("title", .str "T"), ("photo", .num 11), ("photos", .arr [.num 22]),
    ("vendor_id", .num 7), ("preparation_days", .num 1), ("stock", .num 5),
    ("unit_type", .num 6304), ("unit_quantity", .num 1)]

/-- Environment for the end-to-end claim: vendor id 42, processed image ids
101 and 102, description data `fs`, everything 2xx. -/
def envC1 (fs : List (String × Json)) : Env :=
  { userInfoResp := ⟨200, .obj [("vendor", .obj [("id", .num 42)])], "ui"⟩,
    imageResult := .ok ⟨200, .obj [("processed_images",
      .arr [.obj [("id", .num 101)], .obj [("id", .num 102)]])], "img"⟩,
    videoResult := .ok vidNeutral,
    descResp := ⟨200, .obj [("data", .obj fs)], "desc"⟩,
    submitResp := ⟨200, .obj [("basalam", .str "ok")], "sub"⟩ }

/-- Payload for the end-to-end claim: description "shirt", stock 5, no
video. -/
def pC1 : TelegramWebhookPayload :=
  { message := "shirt", photos := ["https://img.example/a.jpg", "https://img.example/b.jpg"],
    stock := 5, video := none, access_token := "tok-c1" }

/-- Draft the end-to-end claim expects: the description data fields
extended with the injected media and constant fields. -/
def c1Expected (fs : List (String × Json)) : Json :=
  .obj (fs ++ [("photo", .num 101), ("photos", .arr [.num 102]), ("vendor_id", .num 42),
    ("preparation_days", .num 1), ("stock", .num 5), ("unit_type", .num 6304),
    ("unit_quantity", .num 1)])

/-! ### Lemmas about ordered field maps -/

theorem getKey_setKey_self (fs : List (String × Json)) (k : String) (v : Json) :
    getKey (setKey fs k v) k = some v := by
  induction fs with
  | nil => simp [setKey, getKey]
  | cons hd tl ih =>
    obtain ⟨k', v'⟩ := hd
    by_cases h : k' = k
    · simp [setKey, getKey, h]
    · simp [setKey, getKey, h, ih]

theorem getKey_setKey_ne (fs : List (String × Json)) (k k' : String) (v : Json)
    (h : k' ≠ k) : getKey (setKey fs k v) k' = getKey fs k' := by
  induction fs with
  | nil => simp [setKey, getKey, Ne.symm h]
  | cons hd tl ih =>
    obtain ⟨k₀, v₀⟩ := hd
    by_cases h₀ : k₀ = k
    · subst h₀
      simp [setKey, getKey, Ne.symm h]
    · simp only [setKey, if_neg h₀]
      by_cases h₁ : k₀ = k'
      · simp [getKey, h₁]
      · simp [getKey, h₁, ih]

theorem setKey_of_getKey_none (fs : List (String × Json)) (k : String) (v : Json)
    (h : getKey fs k = none) : setKey fs k v = fs ++ [(k, v)] := by
  induction fs with
  | nil => simp [setKey]
  | cons hd tl ih =>
    obtain ⟨k₀, v₀⟩ := hd
    by_cases h₀ : k₀ = k
    · simp [getKey, h₀] at h
    · simp only [getKey, if_neg h₀] at h
      simp [setKey, h₀, ih h]

theorem getKey_append_of_none (fs gs : List (String × Json)) (k : String)
    (h : getKey fs k = none) : getKey (fs ++ gs) k = getKey gs k := by
  induction fs with
  | nil => simp
  | cons hd tl ih =>
    obtain ⟨k₀, v₀⟩ := hd
    by_cases h₀ : k₀ = k
    · simp [getKey, h₀] at h
    · simp only [getKey, if_neg h₀] at h
      simp [getKey, h₀, ih h]

/-! ### Lemmas about the draft after media injection -/

theorem injectMedia_photo (fs : List (String × Json)) (ids : List Json)
    (vid v : Json) (s : Int) (hids : ids.isEmpty = false) :
    getKey (injectMedia fs ids vid v s) "photo" = some (ids.headD .null) := by
  unfold injectMedia
  simp only [hids, Bool.false_eq_true, if_false]
  rw [getKey_setKey_ne _ _ _ _ (by decide), getKey_setKey_ne _ _ _ _ (by decide),
    getKey_setKey_ne _ _ _ _ (by decide), getKey_setKey_ne _ _ _ _ (by decide),
    getKey_setKey_ne _ _ _ _ (by decide)]
  by_cases hv : vid.truthy
  · simp only [hv, if_true]
    rw [getKey_setKey_ne _ _ _ _ (by decide), getKey_setKey_ne _ _ _ _ (by decide),
      getKey_setKey_self]
  · simp only [hv, Bool.false_eq_true, if_false]
    rw [getKey_setKey_ne _ _ _ _ (by decide), getKey_setKey_self]

theorem injectMedia_photos (fs : List (String × Json)) (ids : List Json)
    (vid v : Json) (s : Int) (hids : ids.isEmpty = false) :
    getKey (injectMedia fs ids vid v s) "photos" = some (.arr ids.tail) := by
  unfold injectMedia
  simp only [hids, Bool.false_eq_true, if_false]
  rw [getKey_setKey_ne _ _ _ _ (by decide), getKey_setKey_ne _ _ _ _ (by decide),
    getKey_setKey_ne _ _ _ _ (by decide), getKey_setKey_ne _ _ _ _ (by decide),
    getKey_setKey_ne _ _ _ _ (by decide)]
  by_cases hv : vid.truthy
  · simp only [hv, if_true]
    rw [getKey_setKey_ne _ _ _ _ (by decide), getKey_setKey_self]
  · simp only [hv, Bool.false_eq_true, if_false]
    rw [getKey_setKey_self]

theorem injectMedia_video_of_falsy (fs : List (String × Json)) (ids : List Json)
    (vid v : Json) (s : Int) (hvid : vid.truthy = false)
    (hfs : getKey fs "video" = none) :
    getKey (injectMedia fs ids vid v s) "video" = none := by
  unfold injectMedia
  simp only [hvid, Bool.false_eq_true, if_false]
  rw [getKey_setKey_ne _ _ _ _ (by decide), getKey_setKey_ne _ _ _ _ (by decide),
    getKey_setKey_ne _ _ _ _ (by decide), getKey_setKey_ne _ _ _ _ (by decide),
    getKey_setKey_ne _ _ _ _ (by decide)]
  by_cases hids : ids.isEmpty
  · simp only [hids, if_true]
    exact hfs
  · simp only [hids, Bool.false_eq_true, if_false]
    rw [getKey_setKey_ne _ _ _ _ (by decide), getKey_setKey_ne _ _ _ _ (by decide)]
    exact hfs

/-! ### Branch equations for the endpoint -/

theorem create_userInfo_fail (p : TelegramWebhookPayload) (env : Env)
    (h1 : is2xx env.userInfoResp.status = false) :
    create_product_from_webhook p env =
      (.err 401 ("Authentication failed: " ++ env.userInfoResp.text), callsUser p) := by
  simp [create_product_from_webhook, h1]

theorem create_no_vendor (p : TelegramWebhookPayload) (env : Env)
    (h1 : is2xx env.userInfoResp.status = true) (h2 : (vendorOf env).truthy = false) :
    create_product_from_webhook p env =
      (.err 400 "User does not have a valid vendor account.", callsUser p) := by
  simp [create_product_from_webhook, h1, h2]

theorem create_media_error (p : TelegramWebhookPayload) (env : Env) (s : Nat) (d : String)
    (h1 : is2xx env.userInfoResp.status = true) (h2 : (vendorOf env).truthy = true)
    (hm : mediaStage p.video env.imageResult env.videoResult = .error (s, d)) :
    create_product_from_webhook p env = (.err s d, callsMedia p) := by
  simp [create_product_from_webhook, h1, h2, hm]

theorem create_desc_error (p : TelegramWebhookPayload) (env : Env)
    (ids : List Json) (vid : Json) (s : Nat) (d : String)
    (h1 : is2xx env.userInfoResp.status = true) (h2 : (vendorOf env).truthy = true)
    (hm : mediaStage p.video env.imageResult env.videoResult = .ok (ids, vid))
    (hd : descStage env.descResp = .error (s, d)) :
    create_product_from_webhook p env = (.err s d, callsDesc p) := by
  simp [create_product_from_webhook, h1, h2, hm, hd]

/-- Exhaustive description of which calls the endpoint can have issued. -/
theorem calls_cases (p : TelegramWebhookPayload) (env : Env) :
    (create_product_from_webhook p env).2 = callsUser p ∨
    (create_product_from_webhook p env).2 = callsMedia p ∨
    (create_product_from_webhook p env).2 = callsDesc p ∨
    ∃ fs ids vid,
      mediaStage p.video env.imageResult env.videoResult = .ok (ids, vid) ∧
      descStage env.descResp = .ok (.obj fs) ∧
      (create_product_from_webhook p env).2 =
        callsAll p env (.obj (injectMedia fs ids vid (vendorOf env) p.stock)) := by
  unfold create_product_from_webhook
  by_cases h1 : is2xx env.userInfoResp.status = true
  · by_cases h2 : (vendorOf env).truthy = true
    · cases hm : mediaStage p.video env.imageResult env.videoResult with
      | error e => simp [h1, h2, hm]
      | ok pr =>
        obtain ⟨ids, vid⟩ := pr
        cases hd : descStage env.descResp with
        | error e => simp [h1, h2, hm, hd]
        | ok data =>
          cases data with
          | obj fs =>
            by_cases h3 : is2xx env.submitResp.status = true
            · exact Or.inr (Or.inr (Or.inr ⟨fs, ids, vid, rfl, rfl, by simp [h1, h2, h3]⟩))
            · exact Or.inr (Or.inr (Or.inr ⟨fs, ids, vid, rfl, rfl, by simp [h1, h2, h3]⟩))
          | null => simp [h1, h2, hm, hd]
          | bool b => simp [h1, h2, hm, hd]
          | num n => simp [h1, h2, hm, hd]
          | str s => simp [h1, h2, hm, hd]
          | arr xs => simp [h1, h2, hm, hd]
    · simp [h1, h2]
  · simp [h1]

/-! ### Non-membership facts about the call lists -/

theorem submission_not_mem_callsDesc (p : TelegramWebhookPayload)
    (v b : Json) (t : String) : ServiceCall.submission v b t ∉ callsDesc p := by
  cases hpv : p.video <;>
    simp [callsDesc, callsMedia, callsUser, videoCallOf, hpv]

theorem submission_not_mem_callsMedia (p : TelegramWebhookPayload)
    (v b : Json) (t : String) : ServiceCall.submission v b t ∉ callsMedia p := by
  cases hpv : p.video <;>
    simp [callsMedia, callsUser, videoCallOf, hpv]

theorem submission_not_mem_callsUser (p : TelegramWebhookPayload)
    (v b : Json) (t : String) : ServiceCall.submission v b t ∉ callsUser p := by
  simp [callsUser]

theorem description_not_mem_callsMedia (p : TelegramWebhookPayload)
    (d : String) : ServiceCall.description d ∉ callsMedia p := by
  cases hpv : p.video <;>
    simp [callsMedia, callsUser, videoCallOf, hpv]

theorem description_not_mem_callsUser (p : TelegramWebhookPayload)
    (d : String) : ServiceCall.description d ∉ callsUser p := by
  simp [callsUser]

/-- Any issued submission call carries exactly the assembled draft. -/
theorem submission_mem_elim (p : TelegramWebhookPayload) (env : Env)
    (v b : Json) (t : String)
    (hmem : ServiceCall.submission v b t ∈ (create_product_from_webhook p env).2) :
    ∃ fs ids vid,
      mediaStage p.video env.imageResult env.videoResult = .ok (ids, vid) ∧
      descStage env.descResp = .ok (.obj fs) ∧
      v = vendorOf env ∧ t = p.access_token ∧
      b = .obj (injectMedia fs ids vid (vendorOf env) p.stock) := by
  rcases calls_cases p env with h | h | h | ⟨fs, ids, vid, hm, hd, h⟩
  · rw [h] at hmem
    exact absurd hmem (submission_not_mem_callsUser p v b t)
  · rw [h] at hmem
    exact absurd hmem (submission_not_mem_callsMedia p v b t)
  · rw [h] at hmem
    exact absurd hmem (submission_not_mem_callsDesc p v b t)
  · rw [h] at hmem
    simp only [callsAll, List.mem_append, List.mem_singleton] at hmem
    rcases hmem with hmem | hmem
    · exact absurd hmem (submission_not_mem_callsDesc p v b t)
    · obtain ⟨hv, hb, ht⟩ := ServiceCall.submission.inj hmem
      exact ⟨fs, ids, vid, hm, hd, hv, ht, hb⟩

/-! ### Facts about the media stage -/

theorem mediaStage_ok_elim (vl : Option String)
    (ir vr : Except String HttpResponse) (ids : List Json) (vid : Json)
    (hm : mediaStage vl ir vr = .ok (ids, vid)) :
    ∃ irr vrr, mediaTransport vl ir vr = .ok (irr, vrr) ∧
      mediaValidate irr vrr = .ok (ids, vid) := by
  unfold mediaStage at hm
  cases ht : mediaTransport vl ir vr with
  | error e => rw [ht] at hm; simp [Except.bind] at hm
  | ok pr =>
    obtain ⟨a, c⟩ := pr
    rw [ht] at hm
    simp only [Except.bind] at hm
    exact ⟨a, c, rfl, hm⟩

theorem mediaValidate_ok_nonempty (ir : HttpResponse) (vr? : Option HttpResponse)
    (ids : List Json) (vid : Json)
    (h : mediaValidate ir vr? = .ok (ids, vid)) : ids.isEmpty = false := by
  unfold mediaValidate at h
  split at h
  · split at h
    · cases h
    · split at h
      · split at h
        · split at h <;>
          · obtain ⟨h₁, h₂⟩ := Prod.mk.injEq _ _ _ _ ▸ Except.ok.inj h
            subst h₁
            simp_all
        · cases h
      · obtain ⟨h₁, h₂⟩ := Prod.mk.injEq _ _ _ _ ▸ Except.ok.inj h
        subst h₁
        simp_all
  · cases h

/-- An issued media stage never accepts an empty image id list. -/
theorem mediaStage_ok_nonempty (vl : Option String)
    (ir vr : Except String HttpResponse) (ids : List Json) (vid : Json)
    (hm : mediaStage vl ir vr = .ok (ids, vid)) : ids.isEmpty = false := by
  obtain ⟨irr, vrr, _, hv⟩ := mediaStage_ok_elim vl ir vr ids vid hm
  exact mediaValidate_ok_nonempty irr vrr ids vid hv

theorem mediaValidate_ok_ids (ir : HttpResponse) (vr? : Option HttpResponse)
    (ids : List Json) (vid : Json)
    (h : mediaValidate ir vr? = .ok (ids, vid)) : ids = imageIdsOf ir.body := by
  unfold mediaValidate at h
  split at h
  · split at h
    · cases h
    · split at h
      · split at h
        · split at h <;>
          · exact ((Prod.mk.injEq _ _ _ _ ▸ Except.ok.inj h).1).symm
        · cases h
      · exact ((Prod.mk.injEq _ _ _ _ ▸ Except.ok.inj h).1).symm
  · cases h

theorem mediaTransport_ok_ir (vl : Option String) (ir : HttpResponse)
    (vres : Except String HttpResponse) (irr : HttpResponse) (vrr : Option HttpResponse)
    (h : mediaTransport vl (.ok ir) vres = .ok (irr, vrr)) : irr = ir := by
  unfold mediaTransport at h
  cases vl with
  | none =>
    obtain ⟨h₁, h₂⟩ := Prod.mk.injEq _ _ _ _ ▸ Except.ok.inj h
    exact h₁.symm
  | some l =>
    cases vres with
    | error e => cases h
    | ok vr =>
      obtain ⟨h₁, h₂⟩ := Prod.mk.injEq _ _ _ _ ▸ Except.ok.inj h
      exact h₁.symm

/-- When the image call reached an HTTP response, the accepted image ids are
exactly the ones collected from its body. -/
theorem mediaStage_ok_ids (vl : Option String) (ir : HttpResponse)
    (vres : Except String HttpResponse) (ids : List Json) (vid : Json)
    (hm : mediaStage vl (.ok ir) vres = .ok (ids, vid)) : ids = imageIdsOf ir.body := by
  obtain ⟨irr, vrr, ht, hv⟩ := mediaStage_ok_elim vl (.ok ir) vres ids vid hm
  obtain rfl := mediaTransport_ok_ir vl ir vres irr vrr ht
  exact mediaValidate_ok_ids irr vrr ids vid hv

/-- Media stage outcome when the image service returns a 2xx response with
no valid image ids (and the gathered video call, if any, raised no
transport error). -/
theorem mediaStage_empty_ids (vl : Option String) (ir : HttpResponse)
    (vres : Except String HttpResponse)
    (hi2 : is2xx ir.status = true) (hempty : (imageIdsOf ir.body).isEmpty = true)
    (hvt : vl = none ∨ ∃ vr, vres = .ok vr) :
    mediaStage vl (.ok ir) vres =
      .error (400, "Uploader service returned no valid image IDs.") := by
  rcases hvt with rfl | ⟨vr, rfl⟩
  · simp [mediaStage, mediaTransport, Except.bind, mediaValidate, hi2, hempty]
  · cases vl <;>
      simp [mediaStage, mediaTransport, Except.bind, mediaValidate, hi2, hempty]

/-- Media stage outcome when the image service returns a non-2xx response. -/
theorem mediaStage_image_bad (vl : Option String) (ir : HttpResponse)
    (vres : Except String HttpResponse)
    (hi2 : is2xx ir.status = false)
    (hvt : vl = none ∨ ∃ vr, vres = .ok vr) :
    mediaStage vl (.ok ir) vres =
      .error (502, "Error from media service " ++ SMART_UPLOADER_URL ++ ": " ++ ir.text) := by
  rcases hvt with rfl | ⟨vr, rfl⟩
  · simp [mediaStage, mediaTransport, Except.bind, mediaValidate, hi2]
  · cases vl <;>
      simp [mediaStage, mediaTransport, Except.bind, mediaValidate, hi2]

/-- Media stage outcome when the video check returns a non-2xx response
(image response fine). -/
theorem mediaStage_video_bad (l : String) (ir vr : HttpResponse)
    (hi2 : is2xx ir.status = true) (hne : (imageIdsOf ir.body).isEmpty = false)
    (hv2 : is2xx vr.status = false) :
    mediaStage (some l) (.ok ir) (.ok vr) =
      .error (502, "Error from media service " ++ VIDEO_CHECK_URL ++ ": " ++ vr.text) := by
  simp [mediaStage, mediaTransport, Except.bind, mediaValidate, hi2, hne, hv2]

/-- Media stage outcome when the video is flagged forbidden: the verdict is
not an error, and the video id stays unset (`Json.null` models Python's
`None`). -/
theorem mediaStage_forbidden (l : String) (ir vr : HttpResponse)
    (hi2 : is2xx ir.status = true) (hne : (imageIdsOf ir.body).isEmpty = false)
    (hv2 : is2xx vr.status = true)
    (hforb : (vr.body.getD "is_forbidden" .null).truthy = true) :
    mediaStage (some l) (.ok ir) (.ok vr) = .ok (imageIdsOf ir.body, .null) := by
  simp [mediaStage, mediaTransport, Except.bind, mediaValidate, hi2, hne, hv2, hforb]

/-- Media stage outcome when the video is not flagged forbidden: the `id`
field of the video response (defaulting to `Json.null`) becomes the video
id. -/
theorem mediaStage_not_forbidden (l : String) (ir vr : HttpResponse)
    (hi2 : is2xx ir.status = true) (hne : (imageIdsOf ir.body).isEmpty = false)
    (hv2 : is2xx vr.status = true)
    (hforb : (vr.body.getD "is_forbidden" .null).truthy = false) :
    mediaStage (some l) (.ok ir) (.ok vr) =
      .ok (imageIdsOf ir.body, vr.body.getD "id" .null) := by
  simp [mediaStage, mediaTransport, Except.bind, mediaValidate, hi2, hne, hv2, hforb]

/-- Media stage outcome with no video link: only the image call matters and
the video id stays unset. -/
theorem mediaStage_no_video (ir : HttpResponse) (vres : Except String HttpResponse)
    (hi2 : is2xx ir.status = true) (hne : (imageIdsOf ir.body).isEmpty = false) :
    mediaStage none (.ok ir) vres = .ok (imageIdsOf ir.body, .null) := by
  simp [mediaStage, mediaTransport, Except.bind, mediaValidate, hi2, hne]

/-! ### Facts about the description stage -/

theorem descStage_ok_of (r : HttpResponse)
    (h2 : is2xx r.status = true) (ht : (r.body.getD "data" .null).truthy = true) :
    descStage r = .ok (r.body.getD "data" .null) := by
  simp [descStage, h2, ht]

theorem descStage_invalid (r : HttpResponse)
    (h2 : is2xx r.status = true) (ht : (r.body.getD "data" .null).truthy = false) :
    descStage r = .error (500, "Received invalid payload from description service.") := by
  simp [descStage, h2, ht]

theorem descStage_ok_elim (r : HttpResponse) (data : Json)
    (hd : descStage r = .ok data) :
    is2xx r.status = true ∧ r.body.getD "data" .null = data ∧ data.truthy = true := by
  unfold descStage at hd
  split at hd
  next h2 =>
    split at hd
    next ht =>
      obtain h := Except.ok.inj hd
      subst h
      exact ⟨h2, rfl, ht⟩
    next ht => cases hd
  next h2 => cases hd

/-- A truthy but non-object `data` value: the endpoint dies on the first
item assignment (Python `TypeError`, surfaced by FastAPI as a plain 500)
before any submission call. -/
theorem create_data_not_obj (p : TelegramWebhookPayload) (env : Env)
    (ids : List Json) (vid data : Json)
    (h1 : is2xx env.userInfoResp.status = true) (h2 : (vendorOf env).truthy = true)
    (hm : mediaStage p.video env.imageResult env.videoResult = .ok (ids, vid))
    (hd : descStage env.descResp = .ok data) (hobj : ∀ fs, data ≠ Json.obj fs) :
    create_product_from_webhook p env = (.err 500 "Internal Server Error", callsDesc p) := by
  cases data with
  | obj fs => exact absurd rfl (hobj fs)
  | null => simp [create_product_from_webhook, h1, h2, hm, hd]
  | bool b => simp [create_product_from_webhook, h1, h2, hm, hd]
  | num n => simp [create_product_from_webhook, h1, h2, hm, hd]
  | str s => simp [create_product_from_webhook, h1, h2, hm, hd]
  | arr xs => simp [create_product_from_webhook, h1, h2, hm, hd]

/-- Call trace of a run that reaches step 5. -/
theorem create_success_calls (p : TelegramWebhookPayload) (env : Env)
    (ids : List Json) (vid : Json) (fs : List (String × Json))
    (h1 : is2xx env.userInfoResp.status = true) (h2 : (vendorOf env).truthy = true)
    (hm : mediaStage p.video env.imageResult env.videoResult = .ok (ids, vid))
    (hd : descStage env.descResp = .ok (.obj fs)) :
    (create_product_from_webhook p env).2 =
      callsAll p env (.obj (injectMedia fs ids vid (vendorOf env) p.stock)) := by
  by_cases h3 : is2xx env.submitResp.status = true <;>
    simp [create_product_from_webhook, h1, h2, hm, hd, h3]

/-! ### Freshness lemmas for the injection step -/

theorem getKey_append_none (fs gs : List (String × Json)) (k : String)
    (hfs : getKey fs k = none) (hgs : getKey gs k = none) :
    getKey (fs ++ gs) k = none := by
  rw [getKey_append_of_none fs gs k hfs]
  exact hgs

theorem setKey_append_fresh (fs gs : List (String × Json)) (k : String) (v : Json)
    (hfs : getKey fs k = none) (hgs : getKey gs k = none) :
    setKey (fs ++ gs) k v = fs ++ (gs ++ [(k, v)]) := by
  rw [setKey_of_getKey_none _ _ _ (getKey_append_none fs gs k hfs hgs), List.append_assoc]

/-- When the injected keys are all fresh in the draft, injection is exactly
an append of the seven new fields (no video id case). -/
theorem injectMedia_of_fresh (fs : List (String × Json)) (ids : List Json)
    (vid v : Json) (s : Int) (hids : ids.isEmpty = false) (hvid : vid.truthy = false)
    (hfresh : ∀ k, k ∈ ["photo", "photos", "vendor_id", "preparation_days",
      "stock", "unit_type", "unit_quantity"] → getKey fs k = none) :
    injectMedia fs ids vid v s = fs ++
      [("photo", ids.headD .null), ("photos", .arr ids.tail), ("vendor_id", v),
       ("preparation_days", .num 1), ("stock", .num s), ("unit_type", .num 6304),
       ("unit_quantity", .num 1)] := by
  unfold injectMedia
  simp only [hids, Bool.false_eq_true, if_false, hvid]
  rw [setKey_of_getKey_none _ _ _ (hfresh "photo" (by simp)),
    setKey_append_fresh _ _ _ _ (hfresh "photos" (by simp)) (by simp [getKey]),
    setKey_append_fresh _ _ _ _ (hfresh "vendor_id" (by simp)) (by simp [getKey]),
    setKey_append_fresh _ _ _ _ (hfresh "preparation_days" (by simp)) (by simp [getKey]),
    setKey_append_fresh _ _ _ _ (hfresh "stock" (by simp)) (by simp [getKey]),
    setKey_append_fresh _ _ _ _ (hfresh "unit_type" (by simp)) (by simp [getKey]),
    setKey_append_fresh _ _ _ _ (hfresh "unit_quantity" (by simp)) (by simp [getKey])]
  simp

/-! ### Generic list and string helpers -/

theorem length_filterMap_of_isSome {α β : Type} (f : α → Option β) (l : List α)
    (h : ∀ a ∈ l, (f a).isSome) : (l.filterMap f).length = l.length := by
  induction l with
  | nil => rfl
  | cons hd tl ih =>
    obtain ⟨y, hy⟩ := Option.isSome_iff_exists.mp (h hd (by simp))
    simp [List.filterMap_cons, hy, ih (fun a ha => h a (by simp [ha]))]

theorem isPrefixOf_self {α : Type} [BEq α] [LawfulBEq α] (l : List α) :
    l.isPrefixOf l = true := by
  induction l with
  | nil => rfl
  | cons hd tl ih => simp [List.isPrefixOf, ih]

/-- Appending a string keeps it findable: the error details built as
`prefixText ++ body` do carry the body. -/
theorem strContains_append_right (a b : String) : strContains (a ++ b) b = true := by
  unfold strContains
  rw [List.any_eq_true]
  refine ⟨a.length, ?_, ?_⟩
  · rw [List.mem_range]
    have h : (a ++ b).length = a.length + b.length := String.length_append a b
    omega
  · have hdata : (a ++ b).toList = a.toList ++ b.toList := by
      simp [String.toList, String.data_append]
    have hlen : a.length = a.toList.length := rfl
    rw [hdata, hlen, List.drop_left]
    exact isPrefixOf_self _

/-- Result and trace of a run in which all five calls succeed. -/
theorem create_success_result (p : TelegramWebhookPayload) (env : Env)
    (ids : List Json) (vid : Json) (fs : List (String × Json))
    (h1 : is2xx env.userInfoResp.status = true) (h2 : (vendorOf env).truthy = true)
    (hm : mediaStage p.video env.imageResult env.videoResult = .ok (ids, vid))
    (hd : descStage env.descResp = .ok (.obj fs))
    (h3 : is2xx env.submitResp.status = true) :
    create_product_from_webhook p env =
      (.ok (.obj (injectMedia fs ids vid (vendorOf env) p.stock)) env.submitResp.body,
       callsAll p env (.obj (injectMedia fs ids vid (vendorOf env) p.stock))) := by
  simp [create_product_from_webhook, h1, h2, hm, hd, h3]

theorem description_mem_callsDesc (p : TelegramWebhookPayload) :
    ServiceCall.description p.message ∈ callsDesc p := by
  cases hpv : p.video <;>
    simp [callsDesc, callsMedia, callsUser, videoCallOf, hpv]

theorem description_mem_callsAll (p : TelegramWebhookPayload) (env : Env) (final : Json) :
    ServiceCall.description p.message ∈ callsAll p env final := by
  cases hpv : p.video <;>
    simp [callsAll, callsDesc, callsMedia, callsUser, videoCallOf, hpv]

/-- Once the media stage has succeeded, the description call is issued no
matter what happens afterwards: a media verdict such as "video forbidden"
is not an error and the pipeline continues. -/
theorem description_mem_of_media_ok (p : TelegramWebhookPayload) (env : Env)
    (ids : List Json) (vid : Json)
    (h1 : is2xx env.userInfoResp.status = true) (h2 : (vendorOf env).truthy = true)
    (hm : mediaStage p.video env.imageResult env.videoResult = .ok (ids, vid)) :
    ServiceCall.description p.message ∈ (create_product_from_webhook p env).2 := by
  cases hdsc : descStage env.descResp with
  | error e =>
    obtain ⟨s, d⟩ := e
    rw [create_desc_error p env ids vid s d h1 h2 hm hdsc]
    exact description_mem_callsDesc p
  | ok data =>
    cases data with
    | obj fs =>
      rw [create_success_calls p env ids vid fs h1 h2 hm hdsc]
      exact description_mem_callsAll p env _
    | null =>
      rw [create_data_not_obj p env ids vid _ h1 h2 hm hdsc (fun fs h => by cases h)]
      exact description_mem_callsDesc p
    | bool c =>
      rw [create_data_not_obj p env ids vid _ h1 h2 hm hdsc (fun fs h => by cases h)]
      exact description_mem_callsDesc p
    | num n =>
      rw [create_data_not_obj p env ids vid _ h1 h2 hm hdsc (fun fs h => by cases h)]
      exact description_mem_callsDesc p
    | str s =>
      rw [create_data_not_obj p env ids vid _ h1 h2 hm hdsc (fun fs h => by cases h)]
      exact description_mem_callsDesc p
    | arr xs =>
      rw [create_data_not_obj p env ids vid _ h1 h2 hm hdsc (fun fs h => by cases h)]
      exact description_mem_callsDesc p

/-! ### Claim theorems -/

/-- C1: end-to-end run with vendor id 42, processed image ids 101 and 102,
no video link, stock 5, description text "shirt": the submitted draft
equals the description service's data fields extended with photo 101,
photos [102], vendor_id 42, preparation_days 1, stock 5, unit_type 6304,
unit_quantity 1, and it contains no video key; the run issues exactly the
four calls and succeeds. -/
theorem c1_end_to_end (fs : List (String × Json)) (hne : fs ≠ [])
    (hfresh : ∀ k, k ∈ ["photo", "photos", "video", "vendor_id", "preparation_days",
      "stock", "unit_type", "unit_quantity"] → getKey fs k = none) :
    create_product_from_webhook pC1 (envC1 fs) =
      (.ok (c1Expected fs) (.obj [("basalam", .str "ok")]),
       [ServiceCall.userInfo "tok-c1",
        ServiceCall.imageUpload ["https://img.example/a.jpg", "https://img.example/b.jpg"],
        ServiceCall.description "shirt",
        ServiceCall.submission (.num 42) (c1Expected fs) "tok-c1"]) ∧
    Json.get? (c1Expected fs) "video" = none := by
  have hisE : fs.isEmpty = false := by
    cases fs with
    | nil => exact absurd rfl hne
    | cons a l => rfl
  have hT : ((envC1 fs).descResp.body.getD "data" .null).truthy = true := by
    show (Json.obj fs).truthy = true
    simp [Json.truthy, hisE]
  have hd : descStage (envC1 fs).descResp = .ok (.obj fs) :=
    descStage_ok_of (envC1 fs).descResp rfl hT
  have hm : mediaStage pC1.video (envC1 fs).imageResult (envC1 fs).videoResult =
      .ok ([.num 101, .num 102], .null) := rfl
  have hin : injectMedia fs [Json.num 101, Json.num 102] Json.null (Json.num 42) 5 =
      fs ++ [("photo", Json.num 101), ("photos", Json.arr [Json.num 102]),
        ("vendor_id", Json.num 42), ("preparation_days", Json.num 1),
        ("stock", Json.num 5), ("unit_type", Json.num 6304),
        ("unit_quantity", Json.num 1)] :=
    injectMedia_of_fresh fs [Json.num 101, Json.num 102] Json.null (Json.num 42) 5
      rfl rfl (fun k hk => hfresh k (by fin_cases hk <;> simp))
  constructor
  · rw [create_success_result pC1 (envC1 fs) [.num 101, .num 102] .null fs rfl rfl hm hd rfl,
      show vendorOf (envC1 fs) = Json.num 42 from rfl,
      show pC1.stock = (5 : Int) from rfl, hin]
    simp [c1Expected, callsAll, callsDesc, callsMedia, callsUser, videoCallOf, pC1, envC1,
      vendorOf, Json.getD, Json.get?, getKey]
  · show getKey (fs ++ _) "video" = none
    exact getKey_append_none _ _ _ (hfresh "video" (by simp)) (by simp [getKey])

/-- Witness for C1 with a one-field data object from the description
service. -/
theorem c1_witness :
    create_product_from_webhook pC1 (envC1 [("name", .str "Shirt")]) =
      (.ok (c1Expected [("name", .str "Shirt")]) (.obj [("basalam", .str "ok")]),
       [ServiceCall.userInfo "tok-c1",
        ServiceCall.imageUpload ["https://img.example/a.jpg", "https://img.example/b.jpg"],
        ServiceCall.description "shirt",
        ServiceCall.submission (.num 42) (c1Expected [("name", .str "Shirt")]) "tok-c1"]) ∧
    Json.get? (c1Expected [("name", .str "Shirt")]) "video" = none :=
  c1_end_to_end [("name", .str "Shirt")] (by simp)
    (fun k hk => by fin_cases hk <;> rfl)

/-- C2: whenever a submission call is issued after an image response whose
`processed_images` all carry an `id`, the draft's `photo` is the first
image's id and `photos` is the list of the remaining images' ids, in
order and with one id per remaining image. -/
theorem c2_photo_split (p : TelegramWebhookPayload) (env : Env)
    (ir : HttpResponse) (img0 : Json) (imgs : List Json) (i0 : Json)
    (v b : Json) (t : String)
    (hir : env.imageResult = .ok ir)
    (hpi : ir.body.getD "processed_images" (.arr []) = .arr (img0 :: imgs))
    (hid0 : Json.get? img0 "id" = some i0)
    (hall : ∀ img ∈ imgs, (Json.get? img "id").isSome = true)
    (hmem : ServiceCall.submission v b t ∈ (create_product_from_webhook p env).2) :
    Json.get? b "photo" = some i0 ∧
    Json.get? b "photos" = some (.arr (imgs.filterMap (fun im => Json.get? im "id"))) ∧
    (imgs.filterMap (fun im => Json.get? im "id")).length = imgs.length := by
  obtain ⟨fs, ids, vid, hm, hd, hv, ht, hb⟩ := submission_mem_elim p env v b t hmem
  rw [hir] at hm
  have hids := mediaStage_ok_ids p.video ir env.videoResult ids vid hm
  have hform : imageIdsOf ir.body = i0 :: imgs.filterMap (fun im => Json.get? im "id") := by
    simp [imageIdsOf, hpi, List.filterMap_cons, hid0]
  rw [hform] at hids
  subst hids
  have hne : (i0 :: imgs.filterMap fun im => Json.get? im "id").isEmpty = false := rfl
  refine ⟨?_, ?_, length_filterMap_of_isSome _ imgs hall⟩
  · rw [hb]
    exact injectMedia_photo fs _ vid _ _ hne
  · rw [hb]
    exact injectMedia_photos fs _ vid _ _ hne

/-- Witness for C2 on the concrete happy path: two processed images with
ids 11 and 22. -/
theorem c2_witness :
    Json.get? draftA "photo" = some (.num 11) ∧
    Json.get? draftA "photos" =
      some (.arr ([Json.obj [("id", Json.num 22)]].filterMap
        (fun im => Json.get? im "id"))) ∧
    ([Json.obj [("id", Json.num 22)]].filterMap (fun im => Json.get? im "id")).length =
      [Json.obj [("id", Json.num 22)]].length := by
  have hmemA : ServiceCall.submission (.num 7) draftA "tok" ∈
      (create_product_from_webhook pHappy envA).2 := by
    have e : (create_product_from_webhook pHappy envA).2 =
        [ServiceCall.userInfo "tok", ServiceCall.imageUpload ["https://img.example/a.jpg"],
         ServiceCall.description "shirt", ServiceCall.submission (.num 7) draftA "tok"] := rfl
    rw [e]
    simp
  exact c2_photo_split pHappy envA imgOK (.obj [("id", .num 11)]) [.obj [("id", .num 22)]]
    (.num 11) (.num 7) draftA "tok" rfl rfl rfl
    (fun img h => by rw [List.mem_singleton] at h; subst h; rfl) hmemA

/-- C7: a video flagged forbidden is a valid business outcome, not an
error: the media stage succeeds with the video id left unset, the pipeline
continues to the description call, and any submitted draft has no `video`
field (given the description data itself carries none). -/
theorem c7_forbidden_video (p : TelegramWebhookPayload) (env : Env) (l : String)
    (ir vr : HttpResponse)
    (hpv : p.video = some l) (hir : env.imageResult = .ok ir)
    (hvr : env.videoResult = .ok vr)
    (hi2 : is2xx ir.status = true) (hne : (imageIdsOf ir.body).isEmpty = false)
    (hv2 : is2xx vr.status = true)
    (hforb : (vr.body.getD "is_forbidden" .null).truthy = true)
    (h1 : is2xx env.userInfoResp.status = true) (h2 : (vendorOf env).truthy = true)
    (hdata : ∀ fs, descStage env.descResp = .ok (.obj fs) → getKey fs "video" = none) :
    mediaStage p.video env.imageResult env.videoResult = .ok (imageIdsOf ir.body, .null) ∧
    ServiceCall.description p.message ∈ (create_product_from_webhook p env).2 ∧
    (∀ v b t, ServiceCall.submission v b t ∈ (create_product_from_webhook p env).2 →
      Json.get? b "video" = none) := by
  have hm : mediaStage p.video env.imageResult env.videoResult =
      .ok (imageIdsOf ir.body, .null) := by
    rw [hpv, hir, hvr]
    exact mediaStage_forbidden l ir vr hi2 hne hv2 hforb
  refine ⟨hm, description_mem_of_media_ok p env _ _ h1 h2 hm, ?_⟩
  intro v b t hmem
  obtain ⟨fs, ids', vid', hm', hd', hv', ht', hb'⟩ := submission_mem_elim p env v b t hmem
  rw [hm] at hm'
  obtain ⟨hids, hvid⟩ := Prod.mk.injEq _ _ _ _ ▸ Except.ok.inj hm'
  rw [hb']
  exact injectMedia_video_of_falsy fs ids' vid' _ _ (by rw [← hvid]; rfl) (hdata fs hd')

/-- C10: a 2xx video-check response with no `is_forbidden` key is treated
as not forbidden — its `id` field (defaulting to null) becomes the video
id candidate — and when that id is missing, null, or 0 the pipeline simply
continues without a `video` field in any submitted draft. -/
theorem c10_missing_keys_video (p : TelegramWebhookPayload) (env : Env) (l : String)
    (ir vr : HttpResponse)
    (hpv : p.video = some l) (hir : env.imageResult = .ok ir)
    (hvr : env.videoResult = .ok vr)
    (hi2 : is2xx ir.status = true) (hne : (imageIdsOf ir.body).isEmpty = false)
    (hv2 : is2xx vr.status = true)
    (hnf : Json.get? vr.body "is_forbidden" = none)
    (hid : (vr.body.getD "id" .null).truthy = false)
    (h1 : is2xx env.userInfoResp.status = true) (h2 : (vendorOf env).truthy = true)
    (hdata : ∀ fs, descStage env.descResp = .ok (.obj fs) → getKey fs "video" = none) :
    mediaStage p.video env.imageResult env.videoResult =
      .ok (imageIdsOf ir.body, vr.body.getD "id" .null) ∧
    ServiceCall.description p.message ∈ (create_product_from_webhook p env).2 ∧
    (∀ v b t, ServiceCall.submission v b t ∈ (create_product_from_webhook p env).2 →
      Json.get? b "video" = none) := by
  have hforb : (vr.body.getD "is_forbidden" .null).truthy = false := by
    unfold Json.getD
    rw [hnf]
    rfl
  have hm : mediaStage p.video env.imageResult env.videoResult =
      .ok (imageIdsOf ir.body, vr.body.getD "id" .null) := by
    rw [hpv, hir, hvr]
    exact mediaStage_not_forbidden l ir vr hi2 hne hv2 hforb
  refine ⟨hm, description_mem_of_media_ok p env _ _ h1 h2 hm, ?_⟩
  intro v b t hmem
  obtain ⟨fs, ids', vid', hm', hd', hv', ht', hb'⟩ := submission_mem_elim p env v b t hmem
  rw [hm] at hm'
  obtain ⟨hids, hvid⟩ := Prod.mk.injEq _ _ _ _ ▸ Except.ok.inj hm'
  rw [hb']
  exact injectMedia_video_of_falsy fs ids' vid' _ _ (by rw [← hvid]; exact hid)
    (hdata fs hd')

/-- Witness for C7: concrete run whose video check answers
`is_forbidden: true` (with an id that is consequently ignored). -/
theorem c7_witness :
    mediaStage pVid.video envForbidden.imageResult envForbidden.videoResult =
      .ok (imageIdsOf imgOK.body, .null) ∧
    ServiceCall.description "shirt" ∈ (create_product_from_webhook pVid envForbidden).2 ∧
    Json.get? draftA "video" = none := by
  obtain ⟨hm, hdm, hsub⟩ := c7_forbidden_video pVid envForbidden "https://img.example/v.mp4"
    imgOK ⟨200, .obj [("is_forbidden", .bool true), ("id", .num 99)], "vid"⟩
    rfl rfl rfl rfl rfl rfl rfl rfl rfl
    (fun fs h => by
      have e : descStage envForbidden.descResp =
          Except.ok (.obj [("title", Json.str "T")]) := rfl
      rw [e] at h
      obtain hfs := Json.obj.inj (Except.ok.inj h)
      rw [← hfs]
      rfl)
  have hmemF : ServiceCall.submission (.num 7) draftA "tok" ∈
      (create_product_from_webhook pVid envForbidden).2 := by
    have e : (create_product_from_webhook pVid envForbidden).2 =
        [ServiceCall.userInfo "tok", ServiceCall.imageUpload ["https://img.example/a.jpg"],
         ServiceCall.videoCheck "https://img.example/v.mp4",
         ServiceCall.description "shirt",
         ServiceCall.submission (.num 7) draftA "tok"] := rfl
    rw [e]
    simp
  exact ⟨hm, hdm, hsub (.num 7) draftA "tok" hmemF⟩

/-- Witness for C10: concrete run whose video check answers 2xx with
neither an `is_forbidden` key nor an `id`. -/
theorem c10_witness :
    mediaStage pVid.video envNoForbKey.imageResult envNoForbKey.videoResult =
      .ok (imageIdsOf imgOK.body, Json.null) ∧
    ServiceCall.description "shirt" ∈ (create_product_from_webhook pVid envNoForbKey).2 ∧
    Json.get? draftA "video" = none := by
  obtain ⟨hm, hdm, hsub⟩ := c10_missing_keys_video pVid envNoForbKey
    "https://img.example/v.mp4" imgOK ⟨200, .obj [("other", .num 1)], "vid"⟩
    rfl rfl rfl rfl rfl rfl rfl rfl rfl rfl
    (fun fs h => by
      have e : descStage envNoForbKey.descResp =
          Except.ok (.obj [("title", Json.str "T")]) := rfl
      rw [e] at h
      obtain hfs := Json.obj.inj (Except.ok.inj h)
      rw [← hfs]
      rfl)
  have hmemN : ServiceCall.submission (.num 7) draftA "tok" ∈
      (create_product_from_webhook pVid envNoForbKey).2 := by
    have e : (create_product_from_webhook pVid envNoForbKey).2 =
        [ServiceCall.userInfo "tok", ServiceCall.imageUpload ["https://img.example/a.jpg"],
         ServiceCall.videoCheck "https://img.example/v.mp4",
         ServiceCall.description "shirt",
         ServiceCall.submission (.num 7) draftA "tok"] := rfl
    rw [e]
    simp
  exact ⟨hm, hdm, hsub (.num 7) draftA "tok" hmemN⟩

/-- C4, as stated, fails: on a 403 from the user-info call the endpoint
answers 401 with detail "Authentication failed: nope" — the downstream body
is carried but the downstream status (403) appears nowhere in the error. -/
theorem c4_counterexample :
    (create_product_from_webhook pHappy envAuthBad).1 =
      .err 401 "Authentication failed: nope" ∧
    strContains "Authentication failed: nope" "nope" = true ∧
    strContains "Authentication failed: nope" "403" = false := by
  refine ⟨rfl, rfl, rfl⟩

/-- C4 (amended): if the user-info call returns a non-2xx status, the
endpoint fails with a 401 error whose detail is "Authentication failed: "
followed by the downstream body (the downstream status is only logged, not
carried), and the only call issued is the user-info call — no media,
description, or submission call occurs. -/
theorem c4_auth_error (p : TelegramWebhookPayload) (env : Env)
    (h1 : is2xx env.userInfoResp.status = false) :
    (create_product_from_webhook p env).1 =
      .err 401 ("Authentication failed: " ++ env.userInfoResp.text) ∧
    (create_product_from_webhook p env).2 = [ServiceCall.userInfo p.access_token] ∧
    strContains ("Authentication failed: " ++ env.userInfoResp.text)
      env.userInfoResp.text = true := by
  have h := create_userInfo_fail p env h1
  exact ⟨by rw [h], by rw [h]; rfl, strContains_append_right _ _⟩

/-- Witness for C4 (amended) at the concrete 403 environment. -/
theorem c4_witness :
    is2xx envAuthBad.userInfoResp.status = false ∧
    ((create_product_from_webhook pHappy envAuthBad).1 =
        .err 401 ("Authentication failed: " ++ envAuthBad.userInfoResp.text) ∧
      (create_product_from_webhook pHappy envAuthBad).2 =
        [ServiceCall.userInfo pHappy.access_token] ∧
      strContains ("Authentication failed: " ++ envAuthBad.userInfoResp.text)
        envAuthBad.userInfoResp.text = true) :=
  ⟨rfl, c4_auth_error pHappy envAuthBad rfl⟩

/-- C5, as stated, fails: on a 500 from the image service the endpoint
answers 502 naming the service URL and carrying the body "bad", but the
downstream status (500) appears nowhere in the error detail. -/
theorem c5_counterexample :
    (create_product_from_webhook pHappy envImgBad).1 =
      .err 502 ("Error from media service " ++ SMART_UPLOADER_URL ++ ": bad") ∧
    strContains ("Error from media service " ++ SMART_UPLOADER_URL ++ ": bad")
      "bad" = true ∧
    strContains ("Error from media service " ++ SMART_UPLOADER_URL ++ ": bad")
      "500" = false := by
  refine ⟨rfl, rfl, rfl⟩

/-- C5 (amended): a non-2xx HTTP response on a media-stage call fails the
request with a 502 bad-gateway error whose detail names the failed
service's URL and carries the downstream response body (the downstream
status is only logged, not carried). -/
theorem c5_media_bad_gateway :
    (∀ (p : TelegramWebhookPayload) (env : Env) (ir : HttpResponse),
      is2xx env.userInfoResp.status = true → (vendorOf env).truthy = true →
      env.imageResult = .ok ir → is2xx ir.status = false →
      (p.video = none ∨ ∃ vr, env.videoResult = .ok vr) →
      (create_product_from_webhook p env).1 =
        .err 502 ("Error from media service " ++ SMART_UPLOADER_URL ++ ": " ++ ir.text)) ∧
    (∀ (p : TelegramWebhookPayload) (env : Env) (l : String) (ir vr : HttpResponse),
      is2xx env.userInfoResp.status = true → (vendorOf env).truthy = true →
      p.video = some l → env.imageResult = .ok ir → is2xx ir.status = true →
      (imageIdsOf ir.body).isEmpty = false →
      env.videoResult = .ok vr → is2xx vr.status = false →
      (create_product_from_webhook p env).1 =
        .err 502 ("Error from media service " ++ VIDEO_CHECK_URL ++ ": " ++ vr.text)) := by
  constructor
  · intro p env ir h1 h2 hir hi2 hvt
    have hm := mediaStage_image_bad p.video ir env.videoResult hi2 hvt
    have h := create_media_error p env 502 _ h1 h2 (by rw [hir]; exact hm)
    rw [h]
  · intro p env l ir vr h1 h2 hpv hir hi2 hne hvr hv2
    have hm := mediaStage_video_bad l ir vr hi2 hne hv2
    have h := create_media_error p env 502 _ h1 h2 (by rw [hpv, hir, hvr]; exact hm)
    rw [h]

/-- Witness for C5 (amended): both media calls instantiated concretely. -/
theorem c5_witness :
    (create_product_from_webhook pHappy envImgBad).1 =
      .err 502 ("Error from media service " ++ SMART_UPLOADER_URL ++ ": " ++ "bad") ∧
    (create_product_from_webhook pVid envVidBad).1 =
      .err 502 ("Error from media service " ++ VIDEO_CHECK_URL ++ ": " ++ "vbad") :=
  ⟨c5_media_bad_gateway.1 pHappy envImgBad ⟨500, .null, "bad"⟩ rfl rfl rfl rfl
      (Or.inl rfl),
   c5_media_bad_gateway.2 pVid envVidBad "https://img.example/v.mp4" imgOK
      ⟨503, .null, "vbad"⟩ rfl rfl rfl rfl rfl rfl rfl rfl⟩

/-- C8: with no video link in the payload, the video-check call is never
issued, whatever the downstream world does; the media stage's call list is
only the user-info call followed by the image upload. -/
theorem c8_no_video_link_no_check (p : TelegramWebhookPayload) (env : Env) (l : String)
    (hv : p.video = none) :
    ServiceCall.videoCheck l ∉ (create_product_from_webhook p env).2 ∧
    callsMedia p = [ServiceCall.userInfo p.access_token, ServiceCall.imageUpload p.photos] := by
  constructor
  · rcases calls_cases p env with h | h | h | ⟨fs, ids, vid, hm, hd, h⟩ <;> rw [h] <;>
      simp [callsUser, callsMedia, callsDesc, callsAll, videoCallOf, hv]
  · simp [callsMedia, callsUser, videoCallOf, hv]

/-- Witness for C8 at a concrete no-video run. -/
theorem c8_witness :
    pHappy.video = none ∧
    (ServiceCall.videoCheck "https://img.example/v.mp4" ∉
        (create_product_from_webhook pHappy envA).2 ∧
      callsMedia pHappy =
        [ServiceCall.userInfo pHappy.access_token, ServiceCall.imageUpload pHappy.photos]) :=
  ⟨rfl, c8_no_video_link_no_check pHappy envA "https://img.example/v.mp4" rfl⟩

/-- C9: a 2xx user-info response whose `vendor.id` is falsy — absent,
`null`, `0`, or the empty string — is rejected with the same 400
"User does not have a valid vendor account." error, after the user-info
call only; a vendor id of 0 is never accepted. -/
theorem c9_falsy_vendor_rejected (p : TelegramWebhookPayload) (env : Env)
    (h1 : is2xx env.userInfoResp.status = true)
    (h2 : (vendorOf env).truthy = false) :
    create_product_from_webhook p env =
      (.err 400 "User does not have a valid vendor account.",
       [ServiceCall.userInfo p.access_token]) :=
  create_no_vendor p env h1 h2

/-- Witness for C9 at a user-info response with `vendor.id = 0`. -/
theorem c9_witness :
    is2xx envVendor0.userInfoResp.status = true ∧
    vendorOf envVendor0 = Json.num 0 ∧
    (vendorOf envVendor0).truthy = false ∧
    create_product_from_webhook pHappy envVendor0 =
      (.err 400 "User does not have a valid vendor account.",
       [ServiceCall.userInfo pHappy.access_token]) :=
  ⟨rfl, rfl, rfl, c9_falsy_vendor_rejected pHappy envVendor0 rfl rfl⟩

/-- C3: when the image service returns a 2xx response with zero valid image
ids (and no transport error occurred on the gathered calls), the request
fails with the 400 validation error and neither the description service nor
the product-submission endpoint is called; and in general a submission call
is only ever issued with a draft whose `photo`/`photos` fields come from a
non-empty image id list. -/
theorem c3_no_image_ids :
    (∀ (p : TelegramWebhookPayload) (env : Env) (ir : HttpResponse),
      is2xx env.userInfoResp.status = true → (vendorOf env).truthy = true →
      env.imageResult = .ok ir → is2xx ir.status = true →
      (imageIdsOf ir.body).isEmpty = true →
      (p.video = none ∨ ∃ vr, env.videoResult = .ok vr) →
      (create_product_from_webhook p env).1 =
        .err 400 "Uploader service returned no valid image IDs." ∧
      (∀ d, ServiceCall.description d ∉ (create_product_from_webhook p env).2) ∧
      (∀ v b t, ServiceCall.submission v b t ∉ (create_product_from_webhook p env).2)) ∧
    (∀ (p : TelegramWebhookPayload) (env : Env) (v b : Json) (t : String),
      ServiceCall.submission v b t ∈ (create_product_from_webhook p env).2 →
      ∃ ids vid, mediaStage p.video env.imageResult env.videoResult = .ok (ids, vid) ∧
        ids ≠ [] ∧ Json.get? b "photo" = some (ids.headD .null) ∧
        Json.get? b "photos" = some (.arr ids.tail)) := by
  constructor
  · intro p env ir h1 h2 hir hi2 hempty hvt
    have hm := mediaStage_empty_ids p.video ir env.videoResult hi2 hempty hvt
    have h := create_media_error p env 400 _ h1 h2 (by rw [hir]; exact hm)
    refine ⟨by rw [h], ?_, ?_⟩
    · intro d
      rw [h]
      exact description_not_mem_callsMedia p d
    · intro v b t
      rw [h]
      exact submission_not_mem_callsMedia p v b t
  · intro p env v b t hmem
    obtain ⟨fs, ids, vid, hm, hd, hv, ht, hb⟩ := submission_mem_elim p env v b t hmem
    have hne := mediaStage_ok_nonempty _ _ _ _ _ hm
    refine ⟨ids, vid, hm, ?_, ?_, ?_⟩
    · intro hnil
      rw [hnil] at hne
      simp [List.isEmpty] at hne
    · rw [hb]
      exact injectMedia_photo fs ids vid _ _ hne
    · rw [hb]
      exact injectMedia_photos fs ids vid _ _ hne

/-- Witness for C3: with an empty `processed_images` the concrete run stops
at the 400 error and issues no description or submission call; on the
concrete happy path the issued submission's draft carries the first image
id as `photo` and the rest as `photos`. -/
theorem c3_witness :
    (create_product_from_webhook pHappy envNoIds).1 =
      .err 400 "Uploader service returned no valid image IDs." ∧
    ServiceCall.description "shirt" ∉ (create_product_from_webhook pHappy envNoIds).2 ∧
    ServiceCall.submission (.num 7) draftA "tok" ∉
      (create_product_from_webhook pHappy envNoIds).2 ∧
    Json.get? draftA "photo" = some (.num 11) ∧
    Json.get? draftA "photos" = some (.arr [.num 22]) := by
  obtain ⟨h₁, h₂, h₃⟩ := c3_no_image_ids.1 pHappy envNoIds imgNoIds rfl rfl rfl rfl rfl
    (Or.inl rfl)
  have hmemA : ServiceCall.submission (.num 7) draftA "tok" ∈
      (create_product_from_webhook pHappy envA).2 := by
    have e : (create_product_from_webhook pHappy envA).2 =
        [ServiceCall.userInfo "tok", ServiceCall.imageUpload ["https://img.example/a.jpg"],
         ServiceCall.description "shirt", ServiceCall.submission (.num 7) draftA "tok"] := rfl
    rw [e]
    simp
  obtain ⟨ids, vid, hm, hne, hph, hphs⟩ :=
    c3_no_image_ids.2 pHappy envA (.num 7) draftA "tok" hmemA
  have hcomp : mediaStage pHappy.video envA.imageResult envA.videoResult =
      Except.ok ([Json.num 11, Json.num 22], Json.null) := rfl
  rw [hcomp] at hm
  have hids : ids = [Json.num 11, Json.num 22] :=
    ((Prod.mk.injEq _ _ _ _ ▸ Except.ok.inj hm).1).symm
  subst hids
  exact ⟨h₁, h₂ "shirt", h₃ _ _ _, hph, hphs⟩

/-- C6: a 2xx description-service response whose `data` is not a non-empty
object never reaches the submission call and yields a 500 error; when
`data` is falsy (absent, `null`, empty object, `0`, `""`, `[]`, `false`)
the error detail is exactly "Received invalid payload from description
service."  (A truthy non-object `data` dies on the item assignment instead:
still a 500, still before any submission.) -/
theorem c6_invalid_desc_payload (p : TelegramWebhookPayload) (env : Env)
    (ids : List Json) (vid : Json)
    (h1 : is2xx env.userInfoResp.status = true) (h2 : (vendorOf env).truthy = true)
    (hm : mediaStage p.video env.imageResult env.videoResult = .ok (ids, vid))
    (hd2 : is2xx env.descResp.status = true)
    (hobj : ∀ fs, env.descResp.body.getD "data" .null = Json.obj fs → fs = []) :
    (∃ d, (create_product_from_webhook p env).1 = .err 500 d) ∧
    (∀ v b t, ServiceCall.submission v b t ∉ (create_product_from_webhook p env).2) ∧
    ((env.descResp.body.getD "data" .null).truthy = false →
      (create_product_from_webhook p env).1 =
        .err 500 "Received invalid payload from description service.") := by
  by_cases hT : (env.descResp.body.getD "data" .null).truthy = true
  · have hd : descStage env.descResp = .ok (env.descResp.body.getD "data" .null) :=
      descStage_ok_of env.descResp hd2 hT
    have hnotobj : ∀ fs, env.descResp.body.getD "data" .null ≠ Json.obj fs := by
      intro fs hEq
      have hfs := hobj fs hEq
      rw [hEq, hfs] at hT
      simp [Json.truthy] at hT
    have h := create_data_not_obj p env ids vid _ h1 h2 hm hd hnotobj
    refine ⟨⟨"Internal Server Error", by rw [h]⟩, ?_, ?_⟩
    · intro v b t
      rw [h]
      exact submission_not_mem_callsDesc p v b t
    · intro hF
      rw [hT] at hF
      simp at hF
  · have hF : (env.descResp.body.getD "data" .null).truthy = false := by
      cases hb : (env.descResp.body.getD "data" .null).truthy
      · rfl
      · exact absurd hb hT
    have hd := descStage_invalid env.descResp hd2 hF
    have h := create_desc_error p env ids vid 500 _ h1 h2 hm hd
    refine ⟨⟨_, by rw [h]⟩, ?_, fun _ => by rw [h]⟩
    intro v b t
    rw [h]
    exact submission_not_mem_callsDesc p v b t

/-- Witness for C6 at a 2xx description response with no `data` field. -/
theorem c6_witness :
    (create_product_from_webhook pHappy envDescEmpty).1 =
      .err 500 "Received invalid payload from description service." ∧
    ServiceCall.submission (.num 7) draftA "tok" ∉
      (create_product_from_webhook pHappy envDescEmpty).2 := by
  obtain ⟨_, hsub, hexact⟩ := c6_invalid_desc_payload pHappy envDescEmpty
    [Json.num 11, Json.num 22] Json.null rfl rfl rfl rfl (fun fs h => by cases h)
  exact ⟨hexact rfl, hsub _ _ _⟩

end Orchestrator
